import Mathlib

/-!
Verification of the CDropdown placement resolver and visibility state
machine from the coreui-react fork.

The placement resolver `getPlacement` is translated directly from the
source: a sequence of reassignments of a local `_placement` variable,
each guarded by an equality test on `direction` or `alignment`.

The visibility controller is embedded as an explicit state machine:
the component state (`CState`) carries the `useState` visibility flag,
mount/ref status, whether the global `mouseup`/`keyup` listeners are
attached, popper status, and counters of callback invocations.  Events
(prop change, global mouse release, global key release, unmount) are
interpreted by `step`, which reproduces the React effect semantics of
the source: when the internal visibility value changes, the cleanup of
the previous effect run executes (destroy popper when enabled, remove
global listeners, invoke `onHide`) followed by the effect body (when
visible and both refs are mounted: init popper when enabled, attach
global listeners, invoke `onShow`).
-/

namespace CoreUIDropdown

/-- The `Placements` union type, as enumerated in the source doc comments:
`auto | top-end | top | top-start | bottom-end | bottom | bottom-start |
right-start | right | right-end | left-start | left | left-end`. -/
inductive Placements
  | auto
  | topEnd
  | top
  | topStart
  | bottomEnd
  | bottom
  | bottomStart
  | rightStart
  | right
  | rightEnd
  | leftStart
  | left
  | leftEnd
  deriving DecidableEq, Repr, Fintype

/-- The `direction` prop values: `center | dropup | dropup-center | dropend | dropstart`.
The optional prop is modelled as `Option Direction`. -/
inductive Direction
  | center
  | dropup
  | dropupCenter
  | dropend
  | dropstart
  deriving DecidableEq, Repr, Fintype

/-- `Directions = 'start' | 'end'` from the source. -/
inductive Directions
  | start
  | «end»
  deriving DecidableEq, Repr, Fintype

/-- The responsive breakpoint keys of the `Breakpoints` union. -/
inductive Breakpoint
  | xs
  | sm
  | md
  | lg
  | xl
  | xxl
  deriving DecidableEq, Repr, Fintype

/-- `Alignments = Directions | Breakpoints`: either a plain direction string
or a single-key breakpoint object. -/
inductive Alignments
  | dir (d : Directions)
  | breakpoint (b : Breakpoint) (d : Directions)
  deriving DecidableEq, Repr, Fintype

/-- Translation of `getPlacement` from the source: `_placement` starts as the
requested placement and is reassigned by each matching rule in order; the
`alignment === 'end'` rule comes last. -/
def getPlacement (placement : Placements) (direction : Option Direction)
    (alignment : Option Alignments) (isRTL : Bool) : Placements :=
  let p0 := placement
  let p1 := if direction = some .dropup then
      (if isRTL then Placements.topEnd else Placements.topStart) else p0
  let p2 := if direction = some .dropupCenter then Placements.top else p1
  let p3 := if direction = some .dropend then
      (if isRTL then Placements.leftStart else Placements.rightStart) else p2
  let p4 := if direction = some .dropstart then
      (if isRTL then Placements.rightStart else Placements.leftStart) else p3
  if alignment = some (.dir .«end») then
    (if isRTL then Placements.bottomStart else Placements.bottomEnd) else p4

/-- The `autoClose` prop: `true` (always), `false` (never), `'inside'`,
`'outside'`. -/
inductive AutoClose
  | always
  | never
  | inside
  | outside
  deriving DecidableEq, Repr, Fintype

/-- Translation of `handleKeyup`: returns whether the handler calls
`setVisible(false)`.  The source returns early when `autoClose === false`,
otherwise hides on `event.key === 'Escape'`. -/
def handleKeyup (autoClose : AutoClose) (key : String) : Bool :=
  if autoClose = .never then false
  else if key = "Escape" then true
  else false

/-- Translation of `handleMouseUp`: returns whether the handler schedules
`setVisible(false)`.  `toggleMounted` / `menuMounted` model
`dropdownToggleRef.current` / `dropdownMenuRef.current` being non-null;
`targetInToggle` / `targetInMenu` model the two `contains(event.target)`
tests. -/
def handleMouseUp (autoClose : AutoClose) (toggleMounted menuMounted : Bool)
    (targetInToggle targetInMenu : Bool) : Bool :=
  if !(toggleMounted && menuMounted) then false
  else if targetInToggle then false
  else if autoClose = .always
      ∨ (autoClose = .inside ∧ targetInMenu = true)
      ∨ (autoClose = .outside ∧ targetInMenu = false) then true
  else false

/-- The per-mount configuration of the controller: the `autoClose`,
`alignment` and `popper` props (constant for a mounted instance). -/
structure Config where
  autoClose : AutoClose
  alignment : Option Alignments
  popper : Bool
  deriving DecidableEq, Repr

/-- `typeof alignment === 'object'`: the alignment is a responsive
breakpoint object rather than a plain string. -/
def isResponsiveAlignment : Option Alignments → Bool
  | some (.breakpoint _ _) => true
  | _ => false

/-- The popper flag actually used by the effects: the source reassigns
`popper = false` whenever the alignment is a breakpoint object. -/
def effectivePopper (cfg : Config) : Bool :=
  if isResponsiveAlignment cfg.alignment then false else cfg.popper

/-- The observable state of one mounted `CDropdown` instance. -/
structure CState where
  /-- the `useState` visibility flag `_visible` -/
  _visible : Bool
  /-- the component is still mounted -/
  mounted : Bool
  /-- `dropdownToggleRef.current` is non-null -/
  toggleMounted : Bool
  /-- `dropdownMenuRef.current` is non-null -/
  menuMounted : Bool
  /-- the global `mouseup` and `keyup` listeners are attached -/
  listeners : Bool
  /-- a popper instance is active -/
  popperActive : Bool
  /-- number of `initPopper` invocations so far -/
  popperInitCount : Nat
  /-- number of `onShow` invocations so far -/
  onShowCount : Nat
  /-- number of `onHide` invocations so far -/
  onHideCount : Nat
  deriving DecidableEq, Repr

/-- The body of the `useEffect` on `[_visible]`: when visible and both refs
are mounted, init the popper (when enabled), attach the global listeners and
invoke `onShow`. -/
def effectBody (cfg : Config) (s : CState) : CState :=
  if s._visible && s.toggleMounted && s.menuMounted then
    { s with
      popperActive := if effectivePopper cfg then true else s.popperActive,
      popperInitCount :=
        if effectivePopper cfg then s.popperInitCount + 1 else s.popperInitCount,
      listeners := true,
      onShowCount := s.onShowCount + 1 }
  else s

/-- The cleanup of that effect: destroy the popper (when enabled), remove the
global listeners and invoke `onHide`.  It runs before each re-run of the
effect and at unmount. -/
def effectCleanup (cfg : Config) (s : CState) : CState :=
  { s with
    popperActive := if effectivePopper cfg then false else s.popperActive,
    listeners := false,
    onHideCount := s.onHideCount + 1 }

/-- `setVisible b` followed by React re-rendering: if the value changed, the
previous effect's cleanup runs and then the effect body runs on the new
state; an unchanged value triggers no effect. -/
def setVisibleState (cfg : Config) (s : CState) (b : Bool) : CState :=
  if s._visible = b then s
  else effectBody cfg (effectCleanup cfg { s with _visible := b })

/-- The external events the controller reacts to. -/
inductive Event
  /-- the controlled `visible` prop changes (the `useEffect` on `[visible]`
  calls `setVisible(visible)`) -/
  | setVisibleProp (b : Bool)
  /-- a global `mouseup`; the flags state whether the release target is
  contained in the toggle and in the menu -/
  | mouseUp (targetInToggle targetInMenu : Bool)
  /-- a global `keyup` with the given key -/
  | keyUp (key : String)
  /-- the component unmounts -/
  | unmount
  deriving DecidableEq, Repr

/-- One transition of the controller.  Global handlers only fire while the
listeners are attached; a hide request from a handler goes through
`setVisible(false)` and hence through the effect cleanup/body pair. -/
def step (cfg : Config) (s : CState) : Event → CState
  | .setVisibleProp b => if s.mounted then setVisibleState cfg s b else s
  | .mouseUp inToggle inMenu =>
      if s.listeners then
        if handleMouseUp cfg.autoClose s.toggleMounted s.menuMounted inToggle inMenu then
          setVisibleState cfg s false
        else s
      else s
  | .keyUp key =>
      if s.listeners then
        if handleKeyup cfg.autoClose key then setVisibleState cfg s false else s
      else s
  | .unmount => if s.mounted then effectCleanup cfg { s with mounted := false } else s

/-- Run a sequence of events. -/
def run (cfg : Config) (s : CState) (es : List Event) : CState :=
  es.foldl (step cfg) s

/-! ## Placement resolver theorems -/

/-- C1: for every requested base placement, `getPlacement` with direction
`dropup` (and the later `alignment == end` rule not applying) returns
`top-start` when RTL is off and `top-end` when RTL is on; and with
alignment `end` (the last rule, so nothing overrides it) it returns
`bottom-end` when RTL is off and `bottom-start` when RTL is on. -/
theorem getPlacement_dropup_and_end_alignment (p : Placements)
    (a : Option Alignments) (r : Bool) :
    (a ≠ some (.dir .«end») →
      getPlacement p (some .dropup) a r =
        (if r then Placements.topEnd else Placements.topStart)) ∧
    (∀ d : Option Direction,
      getPlacement p d (some (.dir .«end»)) r =
        (if r then Placements.bottomStart else Placements.bottomEnd)) := by
  revert p a r
  decide

/-- Witness for C1 at concrete inputs: base placement `bottom-start`,
alignment absent, RTL off. -/
theorem getPlacement_dropup_and_end_alignment_witness :
    getPlacement .bottomStart (some .dropup) none false = .topStart ∧
    getPlacement .bottomStart none (some (.dir .«end»)) false = .bottomEnd :=
  ⟨(getPlacement_dropup_and_end_alignment .bottomStart none false).1 (by decide),
   (getPlacement_dropup_and_end_alignment .bottomStart none false).2 none⟩

/-- C2: the rules apply in order with later rules overriding earlier ones:
when direction `dropup` and alignment `end` both apply, the result is the
alignment rule's output (`bottom-end`, or `bottom-start` under RTL), not the
direction rule's. -/
theorem getPlacement_end_overrides_dropup (p : Placements) (r : Bool) :
    getPlacement p (some .dropup) (some (.dir .«end»)) r =
      (if r then Placements.bottomStart else Placements.bottomEnd) ∧
    getPlacement p (some .dropup) (some (.dir .«end»)) r ≠
      (if r then Placements.topEnd else Placements.topStart) := by
  revert p r
  decide

/-- C8: for every direction outside the four recognized rule triggers
(so `center` or absent) combined with every alignment other than `end`,
`getPlacement` returns the requested base placement unchanged. -/
theorem getPlacement_default_fallthrough (p : Placements) (d : Option Direction)
    (a : Option Alignments) (r : Bool)
    (hd1 : d ≠ some .dropup) (hd2 : d ≠ some .dropupCenter)
    (hd3 : d ≠ some .dropend) (hd4 : d ≠ some .dropstart)
    (ha : a ≠ some (.dir .«end»)) :
    getPlacement p d a r = p := by
  revert p d a r
  decide

/-- Witness for C8 at concrete inputs: base placement `auto`, direction
`center`, alignment `start`, RTL on. -/
theorem getPlacement_default_fallthrough_witness :
    getPlacement .auto (some .center) (some (.dir .start)) true = .auto :=
  getPlacement_default_fallthrough .auto (some .center) (some (.dir .start)) true
    (by decide) (by decide) (by decide) (by decide) (by decide)

/-- C7 counterexample: the resolver's outputs do not fit in any nine-member
placement set — the resolver is the identity on the base placement when no
rule applies, so all thirteen members of the `Placements` enum occur as
outputs. -/
theorem getPlacement_range_not_nine_members :
    ¬ ∃ s : Finset Placements, s.card = 9 ∧
      ∀ (p : Placements) (d : Option Direction) (a : Option Alignments) (r : Bool),
        getPlacement p d a r ∈ s := by
  rintro ⟨s, hcard, hmem⟩
  have hsub : (Finset.univ : Finset Placements) ⊆ s := by
    intro p _
    have h := hmem p none none false
    simpa [getPlacement] using h
  have hle : (Finset.univ : Finset Placements).card ≤ s.card :=
    Finset.card_le_card hsub
  have huniv : (Finset.univ : Finset Placements).card = 13 := by decide
  omega

/-- C7 amended: for all inputs the resolver returns a value of the fixed
thirteen-member placement enum (and, being a pure function, it is
deterministic). -/
theorem getPlacement_total_in_enum (p : Placements) (d : Option Direction)
    (a : Option Alignments) (r : Bool) :
    getPlacement p d a r ∈
      ([.auto, .topEnd, .top, .topStart, .bottomEnd, .bottom, .bottomStart,
        .rightStart, .right, .rightEnd, .leftStart, .left, .leftEnd] :
        List Placements) := by
  revert p d a r
  decide

/-! ## Visibility controller theorems -/

/-- C3: while shown with the global listeners attached, a released Escape
key hides the panel whenever `autoClose` is not `never`; with `autoClose`
`never` the state stays shown. -/
theorem escape_closes_unless_never (cfg : Config) (s : CState)
    (hv : s._visible = true) (hl : s.listeners = true) :
    (cfg.autoClose ≠ .never → (step cfg s (.keyUp "Escape"))._visible = false) ∧
    (cfg.autoClose = .never → (step cfg s (.keyUp "Escape"))._visible = true) := by
  constructor
  · intro h
    simp [step, hl, handleKeyup, h, setVisibleState, hv, effectCleanup, effectBody]
  · intro h
    simp [step, hl, handleKeyup, h, hv]

/-- Witness for C3: a shown panel with `autoClose` `always` (`true`) hides
on Escape. -/
theorem escape_closes_unless_never_witness :
    (step ⟨.always, none, true⟩ ⟨true, true, true, true, true, true, 1, 1, 0⟩
      (.keyUp "Escape"))._visible = false :=
  (escape_closes_unless_never ⟨.always, none, true⟩
    ⟨true, true, true, true, true, true, 1, 1, 0⟩ rfl rfl).1 (by decide)

/-- C4: while shown, with `autoClose` `outside` a pointer release inside the
panel (not in the trigger) leaves the state shown and a release outside both
trigger and panel hides it; the outside release also hides under `autoClose`
`always` (`true`). -/
theorem outside_autoclose_mouseup (cfg : Config) (s : CState)
    (hv : s._visible = true) (hl : s.listeners = true)
    (ht : s.toggleMounted = true) (hmenu : s.menuMounted = true) :
    (cfg.autoClose = .outside →
      (step cfg s (.mouseUp false true))._visible = true ∧
      (step cfg s (.mouseUp false false))._visible = false) ∧
    (cfg.autoClose = .always →
      (step cfg s (.mouseUp false false))._visible = false) := by
  constructor
  · intro h
    constructor
    · simp [step, hl, handleMouseUp, ht, hmenu, h, hv]
    · simp [step, hl, handleMouseUp, ht, hmenu, h, setVisibleState, hv,
        effectCleanup, effectBody]
  · intro h
    simp [step, hl, handleMouseUp, ht, hmenu, h, setVisibleState, hv,
      effectCleanup, effectBody]

/-- Witness for C4: a shown panel with `autoClose` `outside` stays shown on
an inside release and hides on an outside release. -/
theorem outside_autoclose_mouseup_witness :
    (step ⟨.outside, none, true⟩ ⟨true, true, true, true, true, true, 1, 1, 0⟩
      (.mouseUp false true))._visible = true ∧
    (step ⟨.outside, none, true⟩ ⟨true, true, true, true, true, true, 1, 1, 0⟩
      (.mouseUp false false))._visible = false :=
  (outside_autoclose_mouseup ⟨.outside, none, true⟩
    ⟨true, true, true, true, true, true, 1, 1, 0⟩ rfl rfl rfl rfl).1 rfl

/-- C5: a change of the controlled `visible` prop makes the internal state
mirror the prop value: setting it to `true` from hidden (refs mounted)
transitions to shown and invokes `onShow` exactly once, and setting it back
to `false` transitions to hidden and invokes `onHide` exactly once. -/
theorem controlled_visible_mirrors_prop (cfg : Config) (s : CState)
    (hm : s.mounted = true) (ht : s.toggleMounted = true)
    (hmenu : s.menuMounted = true) :
    (s._visible = false →
      (step cfg s (.setVisibleProp true))._visible = true ∧
      (step cfg s (.setVisibleProp true)).onShowCount = s.onShowCount + 1) ∧
    (s._visible = true →
      (step cfg s (.setVisibleProp false))._visible = false ∧
      (step cfg s (.setVisibleProp false)).onHideCount = s.onHideCount + 1) := by
  constructor
  · intro hv
    simp [step, hm, setVisibleState, hv, effectBody, effectCleanup, ht, hmenu]
  · intro hv
    simp [step, hm, setVisibleState, hv, effectBody, effectCleanup]

/-- Witness for C5: from a freshly mounted hidden instance, setting the prop
to `true` shows the panel with one `onShow` call, and setting it back hides
it with one more `onHide` call. -/
theorem controlled_visible_mirrors_prop_witness :
    ((step ⟨.always, none, true⟩ ⟨false, true, true, true, false, false, 0, 0, 0⟩
        (.setVisibleProp true))._visible = true ∧
      (step ⟨.always, none, true⟩ ⟨false, true, true, true, false, false, 0, 0, 0⟩
        (.setVisibleProp true)).onShowCount = 1) ∧
    ((step ⟨.always, none, true⟩ ⟨true, true, true, true, true, true, 1, 1, 1⟩
        (.setVisibleProp false))._visible = false ∧
      (step ⟨.always, none, true⟩ ⟨true, true, true, true, true, true, 1, 1, 1⟩
        (.setVisibleProp false)).onHideCount = 2) :=
  ⟨(controlled_visible_mirrors_prop ⟨.always, none, true⟩
      ⟨false, true, true, true, false, false, 0, 0, 0⟩ rfl rfl rfl).1 rfl,
   (controlled_visible_mirrors_prop ⟨.always, none, true⟩
      ⟨true, true, true, true, true, true, 1, 1, 1⟩ rfl rfl rfl).2 rfl⟩

/-- C6: the global listeners are attached on entry to shown (refs mounted)
and removed on every exit from shown, including unmount; after unmount no
listener remains, so a subsequent global mouse or key event changes nothing
(no handler of this instance runs). -/
theorem listener_acquire_release (cfg : Config) (s : CState)
    (hm : s.mounted = true) :
    (s._visible = false → s.toggleMounted = true → s.menuMounted = true →
      (step cfg s (.setVisibleProp true)).listeners = true) ∧
    (s._visible = true → (step cfg s (.setVisibleProp false)).listeners = false) ∧
    (step cfg s .unmount).listeners = false ∧
    (∀ (a b : Bool) (k : String),
      step cfg (step cfg s .unmount) (.mouseUp a b) = step cfg s .unmount ∧
      step cfg (step cfg s .unmount) (.keyUp k) = step cfg s .unmount) := by
  refine ⟨?_, ?_, ?_, ?_⟩
  · intro hv ht hmenu
    simp [step, hm, setVisibleState, hv, effectBody, effectCleanup, ht, hmenu]
  · intro hv
    simp [step, hm, setVisibleState, hv, effectBody, effectCleanup]
  · simp [step, hm, effectCleanup]
  · intro a b k
    constructor <;> simp [step, hm, effectCleanup]

/-- Witness for C6: unmounting a shown instance detaches the listeners and a
later global mouse event is a no-op. -/
theorem listener_acquire_release_witness :
    (step ⟨.always, none, true⟩ ⟨true, true, true, true, true, true, 1, 1, 0⟩
      .unmount).listeners = false ∧
    step ⟨.always, none, true⟩
      (step ⟨.always, none, true⟩ ⟨true, true, true, true, true, true, 1, 1, 0⟩
        .unmount) (.mouseUp false false) =
      step ⟨.always, none, true⟩ ⟨true, true, true, true, true, true, 1, 1, 0⟩
        .unmount :=
  ⟨(listener_acquire_release ⟨.always, none, true⟩
      ⟨true, true, true, true, true, true, 1, 1, 0⟩ rfl).2.2.1,
   ((listener_acquire_release ⟨.always, none, true⟩
      ⟨true, true, true, true, true, true, 1, 1, 0⟩ rfl).2.2.2 false false "x").1⟩

/-- C9: for every auto-close mode, a global pointer release whose target is
contained in the trigger causes no transition, and a pointer release while
the trigger or the panel element is absent is a no-op. -/
theorem mouseup_noop_on_toggle_or_unmounted_refs (cfg : Config) (s : CState) :
    (∀ b : Bool, step cfg s (.mouseUp true b) = s) ∧
    ((s.toggleMounted = false ∨ s.menuMounted = false) →
      ∀ a b : Bool, step cfg s (.mouseUp a b) = s) := by
  constructor
  · intro b
    cases hls : s.listeners <;>
      cases htm : s.toggleMounted <;>
      cases hmm : s.menuMounted <;>
      simp [step, handleMouseUp, hls, htm, hmm]
  · rintro (h | h) <;> intro a b <;>
      cases hls : s.listeners <;>
      simp [step, handleMouseUp, hls, h]

/-- Witness for C9: with both refs absent, an outside release under
`autoClose` `always` changes nothing. -/
theorem mouseup_noop_on_toggle_or_unmounted_refs_witness :
    step ⟨.always, none, true⟩ ⟨true, true, false, false, true, true, 1, 1, 0⟩
      (.mouseUp false false) =
      ⟨true, true, false, false, true, true, 1, 1, 0⟩ :=
  (mouseup_noop_on_toggle_or_unmounted_refs ⟨.always, none, true⟩
    ⟨true, true, false, false, true, true, 1, 1, 0⟩).2 (Or.inl rfl) false false

/-- `setVisible` leaves the popper-init counter unchanged when the effective
popper flag is off. -/
theorem setVisibleState_popperInitCount (cfg : Config)
    (h : effectivePopper cfg = false) (s : CState) (b : Bool) :
    (setVisibleState cfg s b).popperInitCount = s.popperInitCount := by
  simp only [setVisibleState, effectBody, effectCleanup, h]
  split_ifs <;> simp_all

/-- No single transition touches the popper-init counter when the effective
popper flag is off. -/
theorem step_popperInitCount (cfg : Config) (h : effectivePopper cfg = false)
    (s : CState) (e : Event) :
    (step cfg s e).popperInitCount = s.popperInitCount := by
  cases e <;> simp only [step] <;> split_ifs <;>
    simp [setVisibleState_popperInitCount cfg h, effectCleanup]

/-- C10: when the alignment prop is a responsive breakpoint object, dynamic
positioning is disabled regardless of the caller-supplied `popper` prop: no
event sequence ever calls the positioning engine's init. -/
theorem responsive_alignment_never_inits_popper (cfg : Config) (s : CState)
    (es : List Event) (h : isResponsiveAlignment cfg.alignment = true) :
    (run cfg s es).popperInitCount = s.popperInitCount := by
  have hep : effectivePopper cfg = false := by simp [effectivePopper, h]
  induction es generalizing s with
  | nil => rfl
  | cons e es ih =>
      have hrun : run cfg s (e :: es) = run cfg (step cfg s e) es := rfl
      rw [hrun, ih (step cfg s e), step_popperInitCount cfg hep s e]

/-- Witness for C10: with `alignment` set to a breakpoint object and
`popper` `true`, showing the panel initializes no popper. -/
theorem responsive_alignment_never_inits_popper_witness :
    (run ⟨.always, some (.breakpoint .md .«end»), true⟩
      ⟨false, true, true, true, false, false, 0, 0, 0⟩
      [.setVisibleProp true]).popperInitCount = 0 :=
  responsive_alignment_never_inits_popper
    ⟨.always, some (.breakpoint .md .«end»), true⟩
    ⟨false, true, true, true, false, false, 0, 0, 0⟩
    [.setVisibleProp true] (by decide)

end CoreUIDropdown
